import Mathlib

/-
Verification model of the brrr library (Go): a postgres test-container
helper that prepares a template database once and serves per-test
database instances cloned from it.

The Go source is embedded shallowly:

* External effects (the pgx pool, the postgres server, the container
  runtime, the filesystem) are modelled by oracles: records of
  `Option Err` fields, one per external call site, `none` meaning the
  call succeeds and `some e` meaning it fails with cause `e`.
  Error values are strings; `fmt.Errorf("...: %w", err)` wrapping is
  string prepending, exactly following the Go format strings.
* Each modelled function returns a `GoResult`: the Go `(value, error)`
  pair plus a trace of the externally visible events it performed, in
  order.  An `exec` event is recorded when the statement is submitted
  (even if the server then fails it); connection-pool slot events
  (`acquireGate` / `releaseGate`) are recorded only when the slot is
  actually taken / given back, mirroring `pool.Acquire` and the
  deferred `conn.Release()`.
* `uuid.NewString()` is modelled by its 32 hex digits, passed in as a
  `List Char`; `uuidNewString` renders the canonical 8-4-4-4-12
  hyphenated form, and `strings.ReplaceAll(s, "-", "")` is
  `removeDashes` (dropping every hyphen character).
* `runMigrations` is modelled as a single oracle step (its internals —
  golang-migrate — are an external collaborator).
-/

namespace Brrr

abbrev Err := String

/-- SQL statements submitted through `Exec`, as structured data; `render`
gives the exact string the Go `fmt.Sprintf` calls build. -/
inductive Stmt where
  | createDB (name tmpl : String)
  | dropDB (name : String)
  | alterTemplate (name : String)
  | raw (sql : String)
deriving DecidableEq

/-- The literal SQL text of a statement, following the Go format strings
`"CREATE DATABASE %s TEMPLATE %s"`, `"DROP DATABASE %s WITH (FORCE)"`,
`"ALTER DATABASE %s is_template=true"`, and raw seed file contents. -/
def Stmt.render : Stmt → String
  | .createDB name tmpl => "CREATE DATABASE " ++ name ++ " TEMPLATE " ++ tmpl
  | .dropDB name => "DROP DATABASE " ++ name ++ " WITH (FORCE)"
  | .alterTemplate name => "ALTER DATABASE " ++ name ++ " is_template=true"
  | .raw sql => sql

/-- Externally visible events, in the order the Go code performs them. -/
inductive Event where
  | startContainer
  | newPool
  | migrate
  | openDB (db : String)
  | ping
  | seedFunc
  | closeConn
  | connect (db : String)
  | acquireGate
  | releaseGate
  | exec (st : Stmt)
  | terminate
deriving DecidableEq

/-- Occurrence count of one event in a trace. -/
def countEv (e : Event) : List Event → Nat
  | [] => 0
  | x :: xs => (if x = e then 1 else 0) + countEv e xs

/-- The Go `Config` struct.  The function-typed fields `SeedFunc` and
`Logger` are modelled by their presence (`hasSeedFunc`, `hasLogger`);
the seed callback's behaviour lives in the setup oracle. -/
structure Config where
  User : String
  Password : String
  Database : String
  Image : String
  MaxConnections : Int
  MigrationsPath : String
  SeedPath : String
  hasSeedFunc : Bool
  hasLogger : Bool
  host : String
  port : Int
deriving DecidableEq

/-- The Go result convention `(value, error)` plus the event trace. -/
structure GoResult (α : Type) where
  val : Option α
  err : Option Err
  trace : List Event

/-- The `DatabaseInstance` struct; the live `pgx.Conn` handle is an
external resource and carries no data relevant to the model. -/
structure DatabaseInstance where
  Name : String
deriving DecidableEq

/-- Outcomes of the three external calls made by `NewInstance`:
`pool.Acquire`, `conn.Exec` (the CREATE), and `pgx.Connect`. -/
structure NewInstOracle where
  acquireErr : Option Err
  execErr : Option Err
  connectErr : Option Err
deriving DecidableEq

/-- Lowercase-hex check for one character of a `uuid.NewString` output
with hyphens removed. -/
def isLowerHex (c : Char) : Bool :=
  ('0' ≤ c && c ≤ '9') || ('a' ≤ c && c ≤ 'f')

/-- The digits fed to the uuid model: 32 lowercase hex characters,
i.e. a 128-bit identifier. -/
def uuidWf (u : List Char) : Prop :=
  u.length = 32 ∧ u.all isLowerHex = true

/-- `uuid.NewString()`: the canonical 8-4-4-4-12 hyphenated rendering of
the 32 hex digits `u`. -/
def uuidNewString (u : List Char) : String :=
  ⟨u.take 8 ++ '-' :: ((u.drop 8).take 4) ++ '-' :: ((u.drop 12).take 4)
    ++ '-' :: ((u.drop 16).take 4) ++ '-' :: u.drop 20⟩

/-- `strings.ReplaceAll(s, "-", "")`: every hyphen is removed. -/
def removeDashes (s : String) : String :=
  ⟨s.data.filter (fun c => c != '-')⟩

/-- The instance name built at part_000 line 79:
`c.cfg.Database + "_" + strings.ReplaceAll(uuid.NewString(), "-", "")`. -/
def instanceName (database : String) (u : List Char) : String :=
  database ++ "_" ++ removeDashes (uuidNewString u)

/-- `Container.NewInstance` (part_000 lines 72–95).  `u` stands for the
digits returned by `uuid.NewString()`. -/
def newInstance (cfg : Config) (o : NewInstOracle) (u : List Char) :
    GoResult DatabaseInstance :=
  match o.acquireErr with
  | some e => ⟨none, some ("failed to acquire connection: " ++ e), []⟩
  | none =>
    match o.execErr with
    | some e =>
        ⟨none, some ("failed to create database from template: " ++ e),
         [.acquireGate,
          .exec (.createDB (instanceName cfg.Database u) cfg.Database),
          .releaseGate]⟩
    | none =>
      match o.connectErr with
      | some e =>
          ⟨none, some e,
           [.acquireGate,
            .exec (.createDB (instanceName cfg.Database u) cfg.Database),
            .connect (instanceName cfg.Database u), .releaseGate]⟩
      | none =>
          ⟨some ⟨instanceName cfg.Database u⟩, none,
           [.acquireGate,
            .exec (.createDB (instanceName cfg.Database u) cfg.Database),
            .connect (instanceName cfg.Database u), .releaseGate]⟩

/-- Outcomes of the three external calls made by `CloseInstance`:
`di.Connection.Close`, `pool.Acquire`, and `conn.Exec` (the DROP). -/
structure CloseOracle where
  closeErr : Option Err
  acquireErr : Option Err
  dropErr : Option Err
deriving DecidableEq

/-- `Container.CloseInstance` (part_000 lines 106–120).  The receiver's
config is not consulted: the DROP targets `di.Name` only. -/
def closeInstance (o : CloseOracle) (di : DatabaseInstance) : GoResult Unit :=
  match o.closeErr with
  | some e =>
      ⟨none, some ("failed to close database connection: " ++ e), [.closeConn]⟩
  | none =>
    match o.acquireErr with
    | some e => ⟨none, some e, [.closeConn]⟩
    | none =>
      match o.dropErr with
      | some e =>
          ⟨none, some e,
           [.closeConn, .acquireGate, .exec (.dropDB di.Name), .releaseGate]⟩
      | none =>
          ⟨some (), none,
           [.closeConn, .acquireGate, .exec (.dropDB di.Name), .releaseGate]⟩

/-- `Container.Close` (part_000 lines 123–125): terminates the container. -/
def containerClose (terminateErr : Option Err) : GoResult Unit :=
  ⟨if terminateErr.isSome then none else some (), terminateErr, [.terminate]⟩

/-- One call against the Clone Gate: a `NewInstance` or a `CloseInstance`. -/
inductive GateCall where
  | acquire (o : NewInstOracle) (u : List Char)
  | release (o : CloseOracle) (di : DatabaseInstance)

/-- The trace one gate call produces. -/
def gateCallTrace (cfg : Config) : GateCall → List Event
  | .acquire o u => (newInstance cfg o u).trace
  | .release o di => (closeInstance o di).trace

/-- The concatenated trace of a finite sequence of gate calls. -/
def runSequence (cfg : Config) : List GateCall → List Event
  | [] => []
  | c :: cs => gateCallTrace cfg c ++ runSequence cfg cs

/-- A trace acquires the single pool slot exactly as often as it
releases it. -/
def gateBalanced (t : List Event) : Prop :=
  countEv .acquireGate t = countEv .releaseGate t

/-- One `os.ReadDir` entry: a file or directory name plus the directory
flag. -/
structure DirEntry where
  name : String
  isDir : Bool
deriving DecidableEq

/-- Go string `<` is byte-wise lexicographic; seed file names are ASCII
so character-wise lexicographic comparison on the char list coincides
with it.  `strLeb a b` decides `a ≤ b`. -/
def strLeb : List Char → List Char → Bool
  | x :: xs, y :: ys =>
      if x < y then true
      else if y < x then false
      else strLeb xs ys
  | [], _ => true
  | _, [] => false

/-- The comparison used at part_000 lines 275–277:
`sqlFiles[i].Name() < sqlFiles[j].Name()` (as the non-strict form fed to
the sort). -/
def entryLe (a b : DirEntry) : Bool :=
  strLeb a.name.data b.name.data

/-- Insert one entry into a name-sorted list. -/
def insertByName (f : DirEntry) : List DirEntry → List DirEntry
  | [] => [f]
  | g :: rest => if entryLe f g then f :: g :: rest else g :: insertByName f rest

/-- `sort.Slice(sqlFiles, ...)` ascending by name.  Go's sort is
unstable; directory entries have pairwise-distinct names, so any
comparison sort yields this same sorted list. -/
def sortByName : List DirEntry → List DirEntry
  | [] => []
  | f :: rest => insertByName f (sortByName rest)

/-- `strings.HasSuffix(s, suffix)`. -/
def hasSuffix (s suffix : String) : Bool :=
  suffix.data == s.data.drop (s.data.length - suffix.data.length)

/-- The filter at part_000 lines 267–272: keep non-directory entries
whose names end in `.sql`. -/
def sqlFilter (files : List DirEntry) : List DirEntry :=
  files.filter (fun f => !f.isDir && hasSuffix f.name ".sql")

/-- The seed directory: its `os.ReadDir` listing plus each file's
contents as read by `os.ReadFile`. -/
structure SeedDir where
  entries : List DirEntry
  content : String → String

/-- Outcomes of the external calls made by `executeFiles`: `sql.Open`,
`db.Ping`, `os.ReadDir`, then per file `os.ReadFile` (keyed by file
name) and `db.Exec` (keyed by the submitted statement text). -/
structure ExecOracle where
  openErr : Option Err
  pingErr : Option Err
  readDirErr : Option Err
  readFileErr : String → Option Err
  execErr : String → Option Err

/-- The read-and-execute loop at part_000 lines 279–292, over an
already filtered and sorted file list: read each file, submit its full
contents as one statement, stop at the first failure. -/
def execLoop (o : ExecOracle) (d : SeedDir) : List DirEntry → Option Err × List Event
  | [] => (none, [])
  | f :: rest =>
    match o.readFileErr f.name with
    | some e => (some ("failed to read file " ++ f.name ++ ": " ++ e), [])
    | none =>
      match o.execErr (d.content f.name) with
      | some e =>
          (some ("failed to execute SQL in " ++ f.name ++ ": " ++ e),
           [.exec (.raw (d.content f.name))])
      | none =>
        let r := execLoop o d rest
        (r.1, .exec (.raw (d.content f.name)) :: r.2)

/-- `executeFiles` (part_000 lines 238–295): open an administrative
connection to the template database, ping it, list the directory,
filter to non-directory `.sql` entries, sort ascending by name, and run
the loop.  Path absolutisation (lines 239–246) only affects which
directory `d` denotes. -/
def executeFiles (cfg : Config) (o : ExecOracle) (d : SeedDir) :
    Option Err × List Event :=
  match o.openErr with
  | some e => (some ("failed to open database connection: " ++ e), [])
  | none =>
    match o.pingErr with
    | some e => (some ("failed to ping database: " ++ e), [.openDB cfg.Database])
    | none =>
      match o.readDirErr with
      | some e =>
          (some ("failed to read directory: " ++ e), [.openDB cfg.Database, .ping])
      | none =>
        let r := execLoop o d (sortByName (sqlFilter d.entries))
        (r.1, [.openDB cfg.Database, .ping] ++ r.2)

/-- Outcomes of the external calls made by `setup` (in program order):
container start, mapped-port lookup (with the port value on success),
pool construction, the whole `runMigrations` call, the seed-file
oracle, the seed-callback block's `sql.Open` / `db.Ping` / callback,
and the final `pool.Acquire` / ALTER exec. -/
structure SetupOracle where
  startErr : Option Err
  portErr : Option Err
  portVal : Int
  poolErr : Option Err
  migrateErr : Option Err
  seedFilesOracle : ExecOracle
  sfOpenErr : Option Err
  sfPingErr : Option Err
  seedFuncErr : Option Err
  acquireErr : Option Err
  alterErr : Option Err

/-- The `Container` struct; the live pool and container handles are
external resources. -/
structure Container where
  cfg : Config

/-- The config mutation at part_000 lines 138–139. -/
def updateHostPort (cfg : Config) (p : Int) : Config :=
  { cfg with host := "localhost", port := p }

/-- The migrations stage of `setup` (lines 148–154): skipped when no
path is configured; `runMigrations` modelled as one oracle step. -/
def migrateStep (cfg : Config) (w : SetupOracle) : Option Err × List Event :=
  if cfg.MigrationsPath = "" then (none, [])
  else
    match w.migrateErr with
    | some e => (some e, [])
    | none => (none, [.migrate])

/-- The seed-file stage of `setup` (lines 156–162): skipped when no
seed path is configured. -/
def seedPathStep (cfg : Config) (w : SetupOracle) (d : SeedDir) :
    Option Err × List Event :=
  if cfg.SeedPath = "" then (none, [])
  else executeFiles cfg w.seedFilesOracle d

/-- The seed-callback stage of `setup` (lines 164–183): skipped when no
callback is configured; opens and pings a connection to the template
database, then invokes the callback. -/
def seedFuncStep (cfg : Config) (w : SetupOracle) : Option Err × List Event :=
  if cfg.hasSeedFunc = false then (none, [])
  else
    match w.sfOpenErr with
    | some e => (some ("failed to open database connection: " ++ e), [])
    | none =>
      match w.sfPingErr with
      | some e => (some ("failed to ping database: " ++ e), [.openDB cfg.Database])
      | none =>
        match w.seedFuncErr with
        | some e => (some e, [.openDB cfg.Database, .ping, .seedFunc])
        | none => (none, [.openDB cfg.Database, .ping, .seedFunc])

/-- The template-marking stage of `setup` (lines 185–193): acquire the
pool slot, run the ALTER, release (deferred). -/
def markTemplateStep (cfg : Config) (w : SetupOracle) : Option Err × List Event :=
  match w.acquireErr with
  | some e => (some e, [])
  | none =>
    match w.alterErr with
    | some e =>
        (some e, [.acquireGate, .exec (.alterTemplate cfg.Database), .releaseGate])
    | none =>
        (none, [.acquireGate, .exec (.alterTemplate cfg.Database), .releaseGate])

/-- `setup` (part_000 lines 127–202): start the container, look up the
mapped port, build the pool, then run the migration, seed-file,
seed-callback and template-marking stages in that order; any failure
returns `(nil, err)` immediately. -/
def setup (cfg0 : Config) (w : SetupOracle) (d : SeedDir) : GoResult Container :=
  match w.startErr with
  | some e => ⟨none, some e, []⟩
  | none =>
    match w.portErr with
    | some e => ⟨none, some e, [.startContainer]⟩
    | none =>
      match w.poolErr with
      | some e => ⟨none, some e, [.startContainer]⟩
      | none =>
        match migrateStep (updateHostPort cfg0 w.portVal) w with
        | (some e, t) => ⟨none, some e, [.startContainer, .newPool] ++ t⟩
        | (none, tm) =>
          match seedPathStep (updateHostPort cfg0 w.portVal) w d with
          | (some e, t) =>
              ⟨none, some e, [.startContainer, .newPool] ++ tm ++ t⟩
          | (none, ts) =>
            match seedFuncStep (updateHostPort cfg0 w.portVal) w with
            | (some e, t) =>
                ⟨none, some e, [.startContainer, .newPool] ++ tm ++ ts ++ t⟩
            | (none, tf) =>
              match markTemplateStep (updateHostPort cfg0 w.portVal) w with
              | (some e, t) =>
                  ⟨none, some e,
                   [.startContainer, .newPool] ++ tm ++ ts ++ tf ++ t⟩
              | (none, tk) =>
                  ⟨some ⟨updateHostPort cfg0 w.portVal⟩, none,
                   [.startContainer, .newPool] ++ tm ++ ts ++ tf ++ tk⟩

/-- A concrete configuration for evaluating the model: template database
`acme`, with migrations, a seed directory and a seed callback configured. -/
def cfgEx : Config :=
  ⟨"u", "pw", "acme", "postgres:17.2", 1000, "migrations", "seed", true, false, "", 0⟩

/-- A concrete 32-hex-digit uuid value. -/
def uuidEx : List Char :=
  ['3', 'f', '0', '7', 'c', '9', 'a', '2', '5', 'd', '8', '1', 'e', '6', 'b', '4',
   '4', 'b', '6', 'e', '1', '8', 'd', '5', '2', 'a', '9', 'c', '7', '0', 'f', '3']

/-- A second, different concrete 32-hex-digit uuid value. -/
def uuidEx2 : List Char :=
  ['9', '0', 'd', '4', 'e', '7', '2', 'c', 'f', 'a', '6', '3', 'b', '8', '1', '5',
   '5', '1', '8', 'b', '3', '6', 'a', 'f', 'c', '2', '7', 'e', '4', 'd', '0', '9']

/-- A concrete seed directory: two `.sql` files listed out of order plus
one `.txt` file. -/
def dirEx : SeedDir :=
  ⟨[⟨"002_b.sql", false⟩, ⟨"003_c.txt", false⟩, ⟨"001_a.sql", false⟩],
   fun n => if n = "001_a.sql" then "INSERT 1" else
            if n = "002_b.sql" then "INSERT 2" else "TXT"⟩

/-- A seed-file oracle on which every external call succeeds. -/
def execOkOracle : ExecOracle :=
  ⟨none, none, none, fun _ => none, fun _ => none⟩

/-- A seed-file oracle on which executing the statement `INSERT 2`
fails and everything else succeeds. -/
def execFailOracle : ExecOracle :=
  ⟨none, none, none, fun _ => none,
   fun s => if s = "INSERT 2" then some "syntax error" else none⟩

/-- A setup oracle where the mapped-port lookup fails right after the
container has started. -/
def wPortFail : SetupOracle :=
  ⟨none, some "port probe failed", 0, none, none, execOkOracle,
   none, none, none, none, none⟩

/-- A setup oracle on which every stage succeeds. -/
def wAllOk : SetupOracle :=
  ⟨none, none, 5432, none, none, execOkOracle, none, none, none, none, none⟩

/-- A setup oracle on which only the seed callback fails. -/
def wSeedFuncFail : SetupOracle :=
  ⟨none, none, 5432, none, none, execOkOracle, none, none,
   some "seed broke", none, none⟩

theorem countEv_append (e : Event) (l₁ l₂ : List Event) :
    countEv e (l₁ ++ l₂) = countEv e l₁ + countEv e l₂ := by
  induction l₁ with
  | nil => simp [countEv]
  | cons x xs ih => simp [countEv, ih]; omega

/-- C2: Whether a `NewInstance` or `CloseInstance` call succeeds or
fails at any step, its trace acquires the single pooled slot exactly as
often as it releases it, and so does the concatenated trace of any
finite sequence of such calls: the gate can never be left held. -/
theorem gate_slot_always_released :
    (∀ cfg o u, gateBalanced (newInstance cfg o u).trace)
    ∧ (∀ o di, gateBalanced (closeInstance o di).trace)
    ∧ (∀ cfg cs, gateBalanced (runSequence cfg cs)) := by
  have hn : ∀ cfg o u, gateBalanced (newInstance cfg o u).trace := by
    intro cfg o u
    rcases o with ⟨a, b, c⟩
    cases a <;> cases b <;> cases c <;>
      simp [newInstance, gateBalanced, countEv]
  have hc : ∀ o di, gateBalanced (closeInstance o di).trace := by
    intro o di
    rcases o with ⟨a, b, c⟩
    cases a <;> cases b <;> cases c <;>
      simp [closeInstance, gateBalanced, countEv]
  refine ⟨hn, hc, ?_⟩
  intro cfg cs
  induction cs with
  | nil => simp [runSequence, gateBalanced, countEv]
  | cons c cs ih =>
    have hone : gateBalanced (gateCallTrace cfg c) := by
      cases c with
      | acquire o u => exact hn cfg o u
      | release o di => exact hc o di
    unfold gateBalanced at hone ih ⊢
    unfold runSequence
    rw [countEv_append, countEv_append, hone, ih]

/-- C7: When acquiring the pooled connection fails (for example because
the caller's context was cancelled while waiting), `NewInstance`
returns the wrapped acquire error, no instance, and an empty trace: no
statement was executed and nothing on the server was touched. -/
theorem newInstance_acquire_failure_no_mutation :
    ∀ cfg o u e, o.acquireErr = some e →
      newInstance cfg o u =
        ⟨none, some ("failed to acquire connection: " ++ e), []⟩ := by
  intro cfg o u e h
  rcases o with ⟨a, b, c⟩
  simp only at h
  subst h
  rfl

theorem newInstance_acquire_failure_no_mutation_witness :
    newInstance cfgEx ⟨some "context canceled", none, none⟩ uuidEx =
      ⟨none, some ("failed to acquire connection: " ++ "context canceled"), []⟩ :=
  newInstance_acquire_failure_no_mutation cfgEx
    ⟨some "context canceled", none, none⟩ uuidEx "context canceled" rfl

/-- C8: When the CREATE DATABASE succeeds but the dedicated connection
to the new database fails, `NewInstance` returns the connect error (no
instance); its trace shows the clone happened and contains no DROP of
any database: the new database is left orphaned. -/
theorem newInstance_connect_failure_orphans :
    ∀ cfg o u e, o.acquireErr = none → o.execErr = none → o.connectErr = some e →
      (newInstance cfg o u).val = none
      ∧ (newInstance cfg o u).err = some e
      ∧ (newInstance cfg o u).trace =
          [.acquireGate,
           .exec (.createDB (instanceName cfg.Database u) cfg.Database),
           .connect (instanceName cfg.Database u), .releaseGate]
      ∧ (∀ n, Event.exec (.dropDB n) ∉ (newInstance cfg o u).trace) := by
  intro cfg o u e h1 h2 h3
  rcases o with ⟨a, b, c⟩
  simp only at h1 h2 h3
  subst h1; subst h2; subst h3
  refine ⟨rfl, rfl, rfl, ?_⟩
  intro n
  simp [newInstance]

theorem newInstance_connect_failure_orphans_witness :
    (newInstance cfgEx ⟨none, none, some "dial failed"⟩ uuidEx).val = none
    ∧ (newInstance cfgEx ⟨none, none, some "dial failed"⟩ uuidEx).err =
        some "dial failed"
    ∧ Event.exec (.dropDB (instanceName cfgEx.Database uuidEx)) ∉
        (newInstance cfgEx ⟨none, none, some "dial failed"⟩ uuidEx).trace :=
  ⟨(newInstance_connect_failure_orphans cfgEx ⟨none, none, some "dial failed"⟩
      uuidEx "dial failed" rfl rfl rfl).1,
   (newInstance_connect_failure_orphans cfgEx ⟨none, none, some "dial failed"⟩
      uuidEx "dial failed" rfl rfl rfl).2.1,
   (newInstance_connect_failure_orphans cfgEx ⟨none, none, some "dial failed"⟩
      uuidEx "dial failed" rfl rfl rfl).2.2.2 (instanceName cfgEx.Database uuidEx)⟩

/-- C1 counterexample: with a failing connection close, `CloseInstance`
returns immediately — its trace is just the close attempt, and no DROP
of the instance's database is ever submitted.  The claim that the drop
is still attempted after a close failure is false. -/
theorem closeInstance_skips_drop_on_close_failure_cex :
    (closeInstance ⟨some "conn reset", none, none⟩ ⟨"acme_0123"⟩).trace =
      [Event.closeConn]
    ∧ (closeInstance ⟨some "conn reset", none, none⟩ ⟨"acme_0123"⟩).err =
        some ("failed to close database connection: " ++ "conn reset")
    ∧ Event.exec (.dropDB "acme_0123") ∉
        (closeInstance ⟨some "conn reset", none, none⟩ ⟨"acme_0123"⟩).trace := by
  refine ⟨rfl, rfl, ?_⟩
  simp [closeInstance]

/-- C1 amended: a close failure short-circuits `CloseInstance` — the
wrapped close error is returned and the drop is not attempted; only
when the close succeeds is the gate acquired and the forced drop
submitted, whose failure (like an acquire failure) is surfaced
unwrapped. -/
theorem closeInstance_close_failure_short_circuits :
    ∀ o di e,
      (o.closeErr = some e →
        closeInstance o di =
          ⟨none, some ("failed to close database connection: " ++ e), [.closeConn]⟩)
      ∧ (o.closeErr = none → o.acquireErr = some e →
          closeInstance o di = ⟨none, some e, [.closeConn]⟩)
      ∧ (o.closeErr = none → o.acquireErr = none →
          (closeInstance o di).err = o.dropErr
          ∧ countEv (.exec (.dropDB di.Name)) (closeInstance o di).trace = 1) := by
  intro o di e
  rcases o with ⟨c, a, dr⟩
  refine ⟨?_, ?_, ?_⟩
  · intro h
    simp only at h
    subst h
    rfl
  · intro h1 h2
    simp only at h1 h2
    subst h1; subst h2
    rfl
  · intro h1 h2
    simp only at h1 h2
    subst h1; subst h2
    cases dr <;> exact ⟨rfl, by simp [closeInstance, countEv]⟩

theorem closeInstance_close_failure_short_circuits_witness :
    closeInstance ⟨some "conn reset", none, none⟩ ⟨"acme_1"⟩ =
      ⟨none, some ("failed to close database connection: " ++ "conn reset"),
       [.closeConn]⟩
    ∧ closeInstance ⟨none, some "pool busy", none⟩ ⟨"acme_1"⟩ =
        ⟨none, some "pool busy", [.closeConn]⟩
    ∧ (closeInstance ⟨none, none, some "drop denied"⟩ ⟨"acme_1"⟩).err =
        some "drop denied"
    ∧ countEv (.exec (.dropDB "acme_1"))
        (closeInstance ⟨none, none, some "drop denied"⟩ ⟨"acme_1"⟩).trace = 1 :=
  ⟨(closeInstance_close_failure_short_circuits
      ⟨some "conn reset", none, none⟩ ⟨"acme_1"⟩ "conn reset").1 rfl,
   (closeInstance_close_failure_short_circuits
      ⟨none, some "pool busy", none⟩ ⟨"acme_1"⟩ "pool busy").2.1 rfl rfl,
   ((closeInstance_close_failure_short_circuits
      ⟨none, none, some "drop denied"⟩ ⟨"acme_1"⟩ "x").2.2 rfl rfl).1,
   ((closeInstance_close_failure_short_circuits
      ⟨none, none, some "drop denied"⟩ ⟨"acme_1"⟩ "x").2.2 rfl rfl).2⟩

/-- C9 counterexample: a post-clone connect failure in `NewInstance`
and a drop failure in `CloseInstance` with the same underlying cause
return byte-identical errors — neither is wrapped with an operation
name, so the failure kinds cannot be told apart from the error. -/
theorem failure_kinds_share_error_text_cex :
    (newInstance cfgEx ⟨none, none, some "boom"⟩ uuidEx).err = some "boom"
    ∧ (closeInstance ⟨none, none, some "boom"⟩ ⟨"acme_9"⟩).err = some "boom" :=
  ⟨rfl, rfl⟩

/-- C9 amended: no failure is retried internally — every external step
is attempted at most once and its failure is returned to the caller
directly.  The gate-acquire and clone failures of `NewInstance` and the
close failure of `CloseInstance` are wrapped with an operation message,
but the post-clone connect failure and `CloseInstance`'s gate-acquire
and drop failures are returned unwrapped, so the error alone does not
always distinguish the failure kinds. -/
theorem errors_propagate_without_retry :
    ∀ cfg o u oc di e,
      (o.acquireErr = some e →
        (newInstance cfg o u).err = some ("failed to acquire connection: " ++ e))
      ∧ (o.acquireErr = none → o.execErr = some e →
        (newInstance cfg o u).err =
          some ("failed to create database from template: " ++ e))
      ∧ (o.acquireErr = none → o.execErr = none → o.connectErr = some e →
        (newInstance cfg o u).err = some e)
      ∧ (oc.closeErr = some e →
        (closeInstance oc di).err =
          some ("failed to close database connection: " ++ e))
      ∧ (oc.closeErr = none → oc.acquireErr = some e →
        (closeInstance oc di).err = some e)
      ∧ (oc.closeErr = none → oc.acquireErr = none → oc.dropErr = some e →
        (closeInstance oc di).err = some e)
      ∧ countEv (.exec (.createDB (instanceName cfg.Database u) cfg.Database))
          (newInstance cfg o u).trace ≤ 1
      ∧ countEv (.connect (instanceName cfg.Database u))
          (newInstance cfg o u).trace ≤ 1
      ∧ countEv .closeConn (closeInstance oc di).trace ≤ 1
      ∧ countEv (.exec (.dropDB di.Name)) (closeInstance oc di).trace ≤ 1 := by
  intro cfg o u oc di e
  rcases o with ⟨a, b, c⟩
  rcases oc with ⟨cc, ca, cd⟩
  refine ⟨?_, ?_, ?_, ?_, ?_, ?_, ?_, ?_, ?_, ?_⟩
  · intro h; simp only at h; subst h; rfl
  · intro h1 h2; simp only at h1 h2; subst h1; subst h2; rfl
  · intro h1 h2 h3; simp only at h1 h2 h3; subst h1; subst h2; subst h3; rfl
  · intro h; simp only at h; subst h; rfl
  · intro h1 h2; simp only at h1 h2; subst h1; subst h2; rfl
  · intro h1 h2 h3; simp only at h1 h2 h3; subst h1; subst h2; subst h3; rfl
  · cases a <;> cases b <;> cases c <;> simp [newInstance, countEv]
  · cases a <;> cases b <;> cases c <;> simp [newInstance, countEv]
  · cases cc <;> cases ca <;> cases cd <;> simp [closeInstance, countEv]
  · cases cc <;> cases ca <;> cases cd <;> simp [closeInstance, countEv]

theorem errors_propagate_without_retry_witness :
    (newInstance cfgEx ⟨some "context canceled", none, none⟩ uuidEx).err =
      some ("failed to acquire connection: " ++ "context canceled")
    ∧ (newInstance cfgEx ⟨none, some "template busy", none⟩ uuidEx).err =
        some ("failed to create database from template: " ++ "template busy")
    ∧ (newInstance cfgEx ⟨none, none, some "dial failed"⟩ uuidEx).err =
        some "dial failed"
    ∧ (closeInstance ⟨some "conn reset", none, none⟩ ⟨"acme_2"⟩).err =
        some ("failed to close database connection: " ++ "conn reset")
    ∧ (closeInstance ⟨none, some "pool busy", none⟩ ⟨"acme_2"⟩).err =
        some "pool busy"
    ∧ (closeInstance ⟨none, none, some "drop denied"⟩ ⟨"acme_2"⟩).err =
        some "drop denied"
    ∧ countEv (.exec (.createDB (instanceName cfgEx.Database uuidEx) cfgEx.Database))
        (newInstance cfgEx ⟨none, none, none⟩ uuidEx).trace ≤ 1 :=
  ⟨(errors_propagate_without_retry cfgEx ⟨some "context canceled", none, none⟩
      uuidEx ⟨none, none, none⟩ ⟨"acme_2"⟩ "context canceled").1 rfl,
   (errors_propagate_without_retry cfgEx ⟨none, some "template busy", none⟩
      uuidEx ⟨none, none, none⟩ ⟨"acme_2"⟩ "template busy").2.1 rfl rfl,
   (errors_propagate_without_retry cfgEx ⟨none, none, some "dial failed"⟩
      uuidEx ⟨none, none, none⟩ ⟨"acme_2"⟩ "dial failed").2.2.1 rfl rfl rfl,
   (errors_propagate_without_retry cfgEx ⟨none, none, none⟩
      uuidEx ⟨some "conn reset", none, none⟩ ⟨"acme_2"⟩ "conn reset").2.2.2.1 rfl,
   (errors_propagate_without_retry cfgEx ⟨none, none, none⟩
      uuidEx ⟨none, some "pool busy", none⟩ ⟨"acme_2"⟩ "pool busy").2.2.2.2.1
      rfl rfl,
   (errors_propagate_without_retry cfgEx ⟨none, none, none⟩
      uuidEx ⟨none, none, some "drop denied"⟩ ⟨"acme_2"⟩ "drop denied").2.2.2.2.2.1
      rfl rfl rfl,
   (errors_propagate_without_retry cfgEx ⟨none, none, none⟩
      uuidEx ⟨none, none, none⟩ ⟨"acme_2"⟩ "x").2.2.2.2.2.2.1⟩

theorem isLowerHex_ne_dash (c : Char) (h : isLowerHex c = true) :
    (c != '-') = true := by
  by_contra hne
  simp at hne
  subst hne
  exact absurd h (by decide)

theorem removeDashes_uuidNewString (u : List Char)
    (h : ∀ c ∈ u, (c != '-') = true) :
    removeDashes (uuidNewString u) = ⟨u⟩ := by
  have hsub : ∀ l : List Char, l ⊆ u → l.filter (fun c => c != '-') = l :=
    fun l hl => List.filter_eq_self.mpr (fun a ha => h a (hl ha))
  have hd : ('-' != '-') = false := by decide
  unfold removeDashes uuidNewString
  simp only [List.filter_append, List.filter_cons, hd, Bool.false_eq_true,
    if_false]
  rw [hsub (u.take 8) (List.take_subset 8 u),
      hsub ((u.drop 8).take 4) (fun a ha => List.drop_subset 8 u (List.take_subset 4 _ ha)),
      hsub ((u.drop 12).take 4) (fun a ha => List.drop_subset 12 u (List.take_subset 4 _ ha)),
      hsub ((u.drop 16).take 4) (fun a ha => List.take_subset 4 _ ha |> List.drop_subset 16 u),
      hsub (u.drop 20) (List.drop_subset 20 u)]
  have h20 : (u.drop 16).take 4 ++ u.drop 20 = u.drop 16 := by
    have := List.take_append_drop 4 (u.drop 16)
    rwa [List.drop_drop] at this
  have h16 : (u.drop 12).take 4 ++ u.drop 16 = u.drop 12 := by
    have := List.take_append_drop 4 (u.drop 12)
    rwa [List.drop_drop] at this
  have h12 : (u.drop 8).take 4 ++ u.drop 12 = u.drop 8 := by
    have := List.take_append_drop 4 (u.drop 8)
    rwa [List.drop_drop] at this
  have h8 : u.take 8 ++ u.drop 8 = u := List.take_append_drop 8 u
  congr 1
  simp only [List.append_assoc]
  rw [h20, h16, h12, h8]

theorem uuidWf_no_dash (u : List Char) (h : uuidWf u) :
    ∀ c ∈ u, (c != '-') = true :=
  fun c hc => isLowerHex_ne_dash c (List.all_eq_true.mp h.2 c hc)

theorem instanceName_eq (db : String) (u : List Char) (h : uuidWf u) :
    instanceName db u = db ++ "_" ++ (⟨u⟩ : String) := by
  unfold instanceName
  rw [removeDashes_uuidNewString u (uuidWf_no_dash u h)]

theorem instanceName_inj (db : String) (u v : List Char)
    (hu : uuidWf u) (hv : uuidWf v) (hne : u ≠ v) :
    instanceName db u ≠ instanceName db v := by
  rw [instanceName_eq db u hu, instanceName_eq db v hv]
  intro h
  apply hne
  have hd := congrArg String.data h
  simp only [String.data_append] at hd
  exact List.append_cancel_left hd

theorem pairwise_instanceName (db : String) (us : List (List Char))
    (hwf : ∀ u ∈ us, uuidWf u) (hd : us.Pairwise (· ≠ ·)) :
    (us.map (instanceName db)).Pairwise (· ≠ ·) := by
  induction us with
  | nil => simp
  | cons u rest ih =>
    rcases List.pairwise_cons.mp hd with ⟨h1, h2⟩
    simp only [List.map_cons, List.pairwise_cons]
    refine ⟨?_, ih (fun v hv => hwf v (List.mem_cons_of_mem _ hv)) h2⟩
    intro b hb
    rcases List.mem_map.mp hb with ⟨v, hv, rfl⟩
    exact instanceName_inj db u v (hwf u (List.mem_cons_self _ _))
      (hwf v (List.mem_cons_of_mem _ hv)) (h1 v hv)

/-- C4: Every name a successful `NewInstance` returns is the template
database name, an underscore, and the hyphen-stripped uuid digits; the
stripped suffix of a well-formed 128-bit uuid has exactly 32 hex
characters; and any collection of calls whose uuid values are pairwise
distinct yields pairwise-distinct instance names. -/
theorem newInstance_names_unique :
    (∀ cfg o u di, (newInstance cfg o u).val = some di →
        di.Name = cfg.Database ++ "_" ++ removeDashes (uuidNewString u))
    ∧ (∀ u, uuidWf u → (removeDashes (uuidNewString u)).length = 32
        ∧ (removeDashes (uuidNewString u)).data.all isLowerHex = true)
    ∧ (∀ (db : String) (us : List (List Char)), (∀ u ∈ us, uuidWf u) →
        us.Pairwise (· ≠ ·) →
        (us.map (instanceName db)).Pairwise (· ≠ ·)) := by
  refine ⟨?_, ?_, pairwise_instanceName⟩
  · intro cfg o u di h
    rcases o with ⟨a, b, c⟩
    cases a <;> cases b <;> cases c <;>
      (simp [newInstance] at h; all_goals simp [← h, instanceName])
  · intro u h
    rw [removeDashes_uuidNewString u (uuidWf_no_dash u h)]
    exact ⟨by rw [String.length_mk]; exact h.1, h.2⟩

theorem newInstance_names_unique_witness :
    (⟨instanceName cfgEx.Database uuidEx⟩ : DatabaseInstance).Name =
      cfgEx.Database ++ "_" ++ removeDashes (uuidNewString uuidEx)
    ∧ (removeDashes (uuidNewString uuidEx)).length = 32
    ∧ ([uuidEx, uuidEx2].map (instanceName cfgEx.Database)).Pairwise (· ≠ ·) :=
  ⟨newInstance_names_unique.1 cfgEx ⟨none, none, none⟩ uuidEx
      ⟨instanceName cfgEx.Database uuidEx⟩ rfl,
   (newInstance_names_unique.2.1 uuidEx (by constructor <;> decide)).1,
   newInstance_names_unique.2.2 cfgEx.Database [uuidEx, uuidEx2]
      (by intro u hu
          simp only [List.mem_cons, List.not_mem_nil, or_false] at hu
          rcases hu with rfl | rfl
          · exact ⟨by decide, by decide⟩
          · exact ⟨by decide, by decide⟩)
      (by decide)⟩

/-- C10: A successful `NewInstance` yields a name that is the template
name extended by an underscore and a 32-character hyphen-free suffix —
33 characters longer than and hence never equal to the template name —
and the only DROP `CloseInstance` ever submits for that instance
targets exactly that name, never the template database. -/
theorem drop_never_targets_template :
    ∀ cfg o u di oc, uuidWf u → (newInstance cfg o u).val = some di →
      di.Name.length = cfg.Database.length + 33
      ∧ di.Name ≠ cfg.Database
      ∧ (∀ c ∈ (removeDashes (uuidNewString u)).data, c ≠ '-')
      ∧ (∀ n, Event.exec (.dropDB n) ∈ (closeInstance oc di).trace →
          n = di.Name) := by
  intro cfg o u di oc hwf h
  have hname : di.Name = instanceName cfg.Database u := by
    rcases o with ⟨a, b, c⟩
    cases a <;> cases b <;> cases c <;>
      (simp [newInstance] at h; all_goals simp [← h])
  have hu1 : ("_" : String).length = 1 := rfl
  have hlen : di.Name.length = cfg.Database.length + 33 := by
    rw [hname, instanceName_eq cfg.Database u hwf]
    simp only [String.length_append, String.length_mk, hwf.1, hu1]
  refine ⟨hlen, ?_, ?_, ?_⟩
  · intro hcontra
    have := congrArg String.length hcontra
    rw [hlen] at this
    omega
  · intro c hc
    rw [removeDashes_uuidNewString u (uuidWf_no_dash u hwf)] at hc
    intro hdash
    subst hdash
    exact absurd (List.all_eq_true.mp hwf.2 '-' hc) (by decide)
  · intro n hn
    rcases oc with ⟨cc, ca, cd⟩
    cases cc <;> cases ca <;> cases cd <;> simp [closeInstance] at hn <;>
      exact hn

theorem strLeb_nil_left (b : List Char) : strLeb [] b = true := by
  cases b <;> rfl

theorem strLeb_total : ∀ a b : List Char, strLeb a b = true ∨ strLeb b a = true := by
  intro a
  induction a with
  | nil => intro b; left; exact strLeb_nil_left b
  | cons x xs ih =>
    intro b
    cases b with
    | nil => right; exact strLeb_nil_left _
    | cons y ys =>
      by_cases h1 : x < y
      · left; simp [strLeb, h1]
      · by_cases h2 : y < x
        · right; simp [strLeb, h2]
        · rcases ih ys with h | h
          · left; simp [strLeb, h1, h2, h]
          · right; simp [strLeb, h1, h2, h]

theorem strLeb_trans :
    ∀ a b c : List Char, strLeb a b = true → strLeb b c = true →
      strLeb a c = true := by
  intro a
  induction a with
  | nil => intro b c _ _; exact strLeb_nil_left c
  | cons x xs ih =>
    intro b c hab hbc
    cases b with
    | nil => simp [strLeb] at hab
    | cons y ys =>
      cases c with
      | nil => simp [strLeb] at hbc
      | cons z zs =>
        by_cases h1 : x < y
        · by_cases h2 : y < z
          · have h3 : x < z := lt_trans h1 h2
            simp [strLeb, h3]
          · by_cases h3 : z < y
            · exfalso; simp [strLeb, h2, h3] at hbc
            · have hyz : y = z := le_antisymm (not_lt.mp h3) (not_lt.mp h2)
              subst hyz
              simp [strLeb, h1]
        · by_cases h2 : y < x
          · exfalso; simp [strLeb, h1, h2] at hab
          · have hxy : x = y := le_antisymm (not_lt.mp h2) (not_lt.mp h1)
            subst hxy
            have hxx : ¬ x < x := lt_irrefl x
            simp only [strLeb, if_neg hxx] at hab
            by_cases h3 : x < z
            · simp [strLeb, h3]
            · by_cases h4 : z < x
              · exfalso
                simp only [strLeb, if_neg h3, if_pos h4] at hbc
                exact Bool.false_ne_true hbc
              · simp only [strLeb, if_neg h3, if_neg h4] at hbc ⊢
                exact ih ys zs hab hbc

theorem entryLe_total (a b : DirEntry) :
    entryLe a b = true ∨ entryLe b a = true :=
  strLeb_total a.name.data b.name.data

theorem entryLe_trans {a b c : DirEntry} (h1 : entryLe a b = true)
    (h2 : entryLe b c = true) : entryLe a c = true :=
  strLeb_trans a.name.data b.name.data c.name.data h1 h2

theorem insertByName_perm (f : DirEntry) :
    ∀ l, (insertByName f l).Perm (f :: l) := by
  intro l
  induction l with
  | nil => exact List.Perm.refl _
  | cons g rest ih =>
    unfold insertByName
    by_cases h : entryLe f g = true
    · rw [if_pos h]
    · rw [if_neg h]
      exact (List.Perm.cons g ih).trans (List.Perm.swap f g rest)

theorem sortByName_perm : ∀ l, (sortByName l).Perm l := by
  intro l
  induction l with
  | nil => exact List.Perm.refl _
  | cons f rest ih =>
    exact (insertByName_perm f (sortByName rest)).trans (List.Perm.cons f ih)

theorem insertByName_pairwise (f : DirEntry) :
    ∀ l, l.Pairwise (fun a b => entryLe a b = true) →
      (insertByName f l).Pairwise (fun a b => entryLe a b = true) := by
  intro l
  induction l with
  | nil => intro _; simp [insertByName]
  | cons g rest ih =>
    intro hl
    rcases List.pairwise_cons.mp hl with ⟨hg, hrest⟩
    unfold insertByName
    by_cases h : entryLe f g = true
    · rw [if_pos h]
      refine List.pairwise_cons.mpr ⟨?_, hl⟩
      intro b hb
      rcases List.mem_cons.mp hb with rfl | hb
      · exact h
      · exact entryLe_trans h (hg b hb)
    · rw [if_neg h]
      refine List.pairwise_cons.mpr ⟨?_, ih hrest⟩
      intro b hb
      have hb' : b = f ∨ b ∈ rest := by
        simpa using (insertByName_perm f rest).mem_iff.mp hb
      rcases hb' with hbf | hb'
      · rw [hbf]
        rcases entryLe_total f g with hfg | hgf
        · exact absurd hfg h
        · exact hgf
      · exact hg b hb'

theorem sortByName_pairwise :
    ∀ l, (sortByName l).Pairwise (fun a b => entryLe a b = true) := by
  intro l
  induction l with
  | nil => simp [sortByName]
  | cons f rest ih => exact insertByName_pairwise f (sortByName rest) ih

theorem execLoop_success (o : ExecOracle) (d : SeedDir) :
    ∀ l, (∀ f ∈ l, o.readFileErr f.name = none ∧
            o.execErr (d.content f.name) = none) →
      execLoop o d l =
        (none, l.map (fun f => .exec (.raw (d.content f.name)))) := by
  intro l
  induction l with
  | nil => intro _; rfl
  | cons f rest ih =>
    intro h
    have hf := h f (List.mem_cons_self _ _)
    simp [execLoop, hf.1, hf.2,
      ih (fun g hg => h g (List.mem_cons_of_mem _ hg))]

theorem execLoop_stops (o : ExecOracle) (d : SeedDir) :
    ∀ pre f post e,
      (∀ g ∈ pre, o.readFileErr g.name = none ∧
          o.execErr (d.content g.name) = none) →
      o.readFileErr f.name = none → o.execErr (d.content f.name) = some e →
      execLoop o d (pre ++ f :: post) =
        (some ("failed to execute SQL in " ++ f.name ++ ": " ++ e),
         (pre ++ [f]).map (fun g => .exec (.raw (d.content g.name)))) := by
  intro pre
  induction pre with
  | nil =>
    intro f post e _ h1 h2
    simp [execLoop, h1, h2]
  | cons g rest ih =>
    intro f post e hpre h1 h2
    have hgok := hpre g (List.mem_cons_self _ _)
    simp [execLoop, hgok.1, hgok.2,
      ih f post e (fun x hx => hpre x (List.mem_cons_of_mem _ hx)) h1 h2]

/-- C5: The files executed by `executeFiles` are exactly the
non-directory entries whose names end in `.sql` (others, e.g. `.txt`
files, are ignored); they run sorted lexicographically ascending by
name, each file's full contents submitted as one statement, and
execution stops at the first failure. -/
theorem executeFiles_sorted_sql_only :
    ∀ cfg o d,
      (sortByName (sqlFilter d.entries)).Perm (sqlFilter d.entries)
      ∧ (∀ f, f ∈ sqlFilter d.entries ↔
          f ∈ d.entries ∧ f.isDir = false ∧ hasSuffix f.name ".sql" = true)
      ∧ (sortByName (sqlFilter d.entries)).Pairwise
          (fun a b => entryLe a b = true)
      ∧ (o.openErr = none → o.pingErr = none → o.readDirErr = none →
          (∀ f ∈ sortByName (sqlFilter d.entries),
            o.readFileErr f.name = none ∧ o.execErr (d.content f.name) = none) →
          executeFiles cfg o d =
            (none, [.openDB cfg.Database, .ping] ++
              (sortByName (sqlFilter d.entries)).map
                (fun f => .exec (.raw (d.content f.name)))))
      ∧ (∀ pre f post e, o.openErr = none → o.pingErr = none →
          o.readDirErr = none →
          sortByName (sqlFilter d.entries) = pre ++ f :: post →
          (∀ g ∈ pre, o.readFileErr g.name = none ∧
              o.execErr (d.content g.name) = none) →
          o.readFileErr f.name = none →
          o.execErr (d.content f.name) = some e →
          executeFiles cfg o d =
            (some ("failed to execute SQL in " ++ f.name ++ ": " ++ e),
             [.openDB cfg.Database, .ping] ++
               (pre ++ [f]).map (fun g => .exec (.raw (d.content g.name))))) := by
  intro cfg o d
  refine ⟨sortByName_perm _, ?_, sortByName_pairwise _, ?_, ?_⟩
  · intro f
    simp [sqlFilter, List.mem_filter, and_assoc]
  · intro h1 h2 h3 h4
    rcases o with ⟨oe, pe, re, rf, ex⟩
    simp only at h1 h2 h3
    subst h1; subst h2; subst h3
    simp [executeFiles, execLoop_success _ d _ h4]
  · intro pre f post e h1 h2 h3 hfs hpre hrf hex
    rcases o with ⟨oe, pe, re, rf, ex⟩
    simp only at h1 h2 h3
    subst h1; subst h2; subst h3
    simp [executeFiles, hfs, execLoop_stops _ d pre f post e hpre hrf hex]

theorem executeFiles_sorted_sql_only_witness :
    executeFiles cfgEx execOkOracle dirEx =
      (none, [Event.openDB "acme", Event.ping,
              Event.exec (.raw "INSERT 1"), Event.exec (.raw "INSERT 2")])
    ∧ executeFiles cfgEx execFailOracle dirEx =
        (some ("failed to execute SQL in " ++ "002_b.sql" ++ ": " ++
               "syntax error"),
         [Event.openDB "acme", Event.ping, Event.exec (.raw "INSERT 1"),
          Event.exec (.raw "INSERT 2")]) :=
  ⟨(executeFiles_sorted_sql_only cfgEx execOkOracle dirEx).2.2.2.1
      rfl rfl rfl (by decide),
   (executeFiles_sorted_sql_only cfgEx execFailOracle dirEx).2.2.2.2
      [⟨"001_a.sql", false⟩] ⟨"002_b.sql", false⟩ [] "syntax error"
      rfl rfl rfl (by decide) (by decide) rfl rfl⟩

theorem countEv_execLoop (ev : Event) (o : ExecOracle) (d : SeedDir)
    (h : ∀ s, ev ≠ Event.exec (.raw s)) :
    ∀ l, countEv ev (execLoop o d l).2 = 0 := by
  intro l
  induction l with
  | nil => rfl
  | cons f rest ih =>
    unfold execLoop
    cases o.readFileErr f.name with
    | some e => rfl
    | none =>
      cases o.execErr (d.content f.name) with
      | some e => simp [countEv, Ne.symm (h (d.content f.name))]
      | none => simp [countEv, ih, Ne.symm (h (d.content f.name))]

theorem countEv_executeFiles (ev : Event) (cfg : Config) (o : ExecOracle)
    (d : SeedDir) (h1 : ∀ s, ev ≠ Event.exec (.raw s))
    (h2 : ev ≠ .openDB cfg.Database) (h3 : ev ≠ .ping) :
    countEv ev (executeFiles cfg o d).2 = 0 := by
  unfold executeFiles
  cases o.openErr with
  | some e => rfl
  | none =>
    cases o.pingErr with
    | some e => simp [countEv, Ne.symm h2]
    | none =>
      cases o.readDirErr with
      | some e => simp [countEv, Ne.symm h2, Ne.symm h3]
      | none =>
        simp [countEv, countEv_append, Ne.symm h2, Ne.symm h3,
          countEv_execLoop ev o d h1]

theorem countEv_migrateStep (ev : Event) (cfg : Config) (w : SetupOracle)
    (h : ev ≠ .migrate) : countEv ev (migrateStep cfg w).2 = 0 := by
  unfold migrateStep
  by_cases hp : cfg.MigrationsPath = ""
  · rw [if_pos hp]
    rfl
  · rw [if_neg hp]
    cases w.migrateErr with
    | some e => rfl
    | none => simp [countEv, Ne.symm h]

theorem countEv_seedPathStep (ev : Event) (cfg : Config) (w : SetupOracle)
    (d : SeedDir) (h1 : ∀ s, ev ≠ Event.exec (.raw s))
    (h2 : ev ≠ .openDB cfg.Database) (h3 : ev ≠ .ping) :
    countEv ev (seedPathStep cfg w d).2 = 0 := by
  unfold seedPathStep
  by_cases hp : cfg.SeedPath = ""
  · rw [if_pos hp]
    rfl
  · rw [if_neg hp]
    exact countEv_executeFiles ev cfg w.seedFilesOracle d h1 h2 h3

theorem countEv_seedFuncStep (ev : Event) (cfg : Config) (w : SetupOracle)
    (h2 : ev ≠ .openDB cfg.Database) (h3 : ev ≠ .ping)
    (h4 : ev ≠ .seedFunc) :
    countEv ev (seedFuncStep cfg w).2 = 0 := by
  unfold seedFuncStep
  by_cases hp : cfg.hasSeedFunc = false
  · rw [if_pos hp]
    rfl
  · rw [if_neg hp]
    cases w.sfOpenErr with
    | some e => rfl
    | none =>
      cases w.sfPingErr with
      | some e => simp [countEv, Ne.symm h2]
      | none =>
        cases w.seedFuncErr with
        | some e => simp [countEv, Ne.symm h2, Ne.symm h3, Ne.symm h4]
        | none => simp [countEv, Ne.symm h2, Ne.symm h3, Ne.symm h4]

theorem countEv_markTemplateStep (ev : Event) (cfg : Config) (w : SetupOracle)
    (h1 : ev ≠ .acquireGate) (h2 : ev ≠ .exec (.alterTemplate cfg.Database))
    (h3 : ev ≠ .releaseGate) :
    countEv ev (markTemplateStep cfg w).2 = 0 := by
  unfold markTemplateStep
  cases w.acquireErr with
  | some e => rfl
  | none =>
    cases w.alterErr with
    | some e => simp [countEv, Ne.symm h1, Ne.symm h2, Ne.symm h3]
    | none => simp [countEv, Ne.symm h1, Ne.symm h2, Ne.symm h3]

/-- C3 counterexample: with the mapped-port lookup failing right after
the container has started, `setup` returns the error with a trace that
shows the server was started and never terminated — the started server
is not torn down. -/
theorem setup_returns_error_without_teardown_cex :
    (setup cfgEx wPortFail dirEx).err = some "port probe failed"
    ∧ (setup cfgEx wPortFail dirEx).val = none
    ∧ (setup cfgEx wPortFail dirEx).trace = [Event.startContainer]
    ∧ countEv Event.terminate (setup cfgEx wPortFail dirEx).trace = 0 :=
  ⟨rfl, rfl, rfl, rfl⟩

/-- C3 amended: if any stage of startup fails, `setup` returns the
error and no `Container` — a partially-initialized `System` is never
returned — but it performs no teardown: no terminate call ever appears
in a `setup` trace, so a server that was already started stays
running (it is leaked). -/
theorem setup_failure_leaves_server_running :
    ∀ cfg w d,
      countEv Event.terminate (setup cfg w d).trace = 0
      ∧ ((setup cfg w d).err.isSome = true → (setup cfg w d).val = none)
      ∧ ((setup cfg w d).err = none → (setup cfg w d).val.isSome = true) := by
  intro cfg w d
  have hm := countEv_migrateStep Event.terminate (updateHostPort cfg w.portVal)
    w (by simp)
  have hs := countEv_seedPathStep Event.terminate (updateHostPort cfg w.portVal)
    w d (by intro s; simp) (by simp) (by simp)
  have hf := countEv_seedFuncStep Event.terminate (updateHostPort cfg w.portVal)
    w (by simp) (by simp) (by simp)
  have hk := countEv_markTemplateStep Event.terminate
    (updateHostPort cfg w.portVal) w (by simp) (by simp) (by simp)
  unfold setup
  split
  · exact ⟨rfl, fun _ => rfl, by intro h; simp at h⟩
  · split
    · exact ⟨rfl, fun _ => rfl, by intro h; simp at h⟩
    · split
      · exact ⟨rfl, fun _ => rfl, by intro h; simp at h⟩
      · split
        · next e t heq =>
            refine ⟨?_, fun _ => rfl, by intro h; simp at h⟩
            rw [heq] at hm
            simp [countEv_append, countEv, hm]
        · next tm heqm =>
            rw [heqm] at hm
            split
            · next e t heq =>
                refine ⟨?_, fun _ => rfl, by intro h; simp at h⟩
                rw [heq] at hs
                simp [countEv_append, countEv, hm, hs]
            · next ts heqs =>
                rw [heqs] at hs
                split
                · next e t heq =>
                    refine ⟨?_, fun _ => rfl, by intro h; simp at h⟩
                    rw [heq] at hf
                    simp [countEv_append, countEv, hm, hs, hf]
                · next tf heqf =>
                    rw [heqf] at hf
                    split
                    · next e t heq =>
                        refine ⟨?_, fun _ => rfl, by intro h; simp at h⟩
                        rw [heq] at hk
                        simp [countEv_append, countEv, hm, hs, hf, hk]
                    · next tk heqk =>
                        rw [heqk] at hk
                        refine ⟨?_, by intro h; simp at h, fun _ => rfl⟩
                        simp [countEv_append, countEv, hm, hs, hf, hk]

theorem setup_failure_leaves_server_running_witness :
    countEv Event.terminate (setup cfgEx wPortFail dirEx).trace = 0
    ∧ (setup cfgEx wPortFail dirEx).val = none
    ∧ (setup cfgEx wAllOk dirEx).val.isSome = true :=
  ⟨(setup_failure_leaves_server_running cfgEx wPortFail dirEx).1,
   (setup_failure_leaves_server_running cfgEx wPortFail dirEx).2.1 rfl,
   (setup_failure_leaves_server_running cfgEx wAllOk dirEx).2.2 rfl⟩

/-- C6: With migrations, a seed path and a seed callback all
configured, a fully successful `setup` performs, in order: container
start, pool construction, migrations, the sorted seed-file executions,
then the seed callback (invoked after opening and pinging a live
connection to the template database), and finally the marking of the
template database as a clone source; and a seed-callback failure
aborts setup before the marking step — no ALTER is ever submitted. -/
theorem setup_stage_order :
    ∀ cfg w d,
      (cfg.MigrationsPath ≠ "" → cfg.SeedPath ≠ "" → cfg.hasSeedFunc = true →
        w.startErr = none → w.portErr = none → w.poolErr = none →
        w.migrateErr = none →
        (executeFiles (updateHostPort cfg w.portVal) w.seedFilesOracle d).1 =
          none →
        w.sfOpenErr = none → w.sfPingErr = none → w.seedFuncErr = none →
        w.acquireErr = none → w.alterErr = none →
        setup cfg w d =
          ⟨some ⟨updateHostPort cfg w.portVal⟩, none,
           [.startContainer, .newPool, .migrate]
           ++ (executeFiles (updateHostPort cfg w.portVal)
                w.seedFilesOracle d).2
           ++ [.openDB cfg.Database, .ping, .seedFunc, .acquireGate,
               .exec (.alterTemplate cfg.Database), .releaseGate]⟩)
      ∧ (∀ e, w.startErr = none → w.portErr = none → w.poolErr = none →
          (migrateStep (updateHostPort cfg w.portVal) w).1 = none →
          (seedPathStep (updateHostPort cfg w.portVal) w d).1 = none →
          cfg.hasSeedFunc = true → w.sfOpenErr = none → w.sfPingErr = none →
          w.seedFuncErr = some e →
          (setup cfg w d).err = some e ∧ (setup cfg w d).val = none
          ∧ countEv (.exec (.alterTemplate cfg.Database))
              (setup cfg w d).trace = 0) := by
  intro cfg w d
  constructor
  · intro hmp hsp hsf h1 h2 h3 h4 hseed h5 h6 h7 h8 h9
    rcases w with ⟨se, pe, pv, ple, me, sfo, soe, spe, sfe, aqe, ale⟩
    simp only at h1 h2 h3 h4 h5 h6 h7 h8 h9 hseed ⊢
    subst h1; subst h2; subst h3; subst h4; subst h5; subst h6; subst h7
    subst h8; subst h9
    rcases hef : executeFiles (updateHostPort cfg pv) sfo d with ⟨r1, r2⟩
    rw [hef] at hseed
    simp only at hseed
    subst hseed
    have hdb : (updateHostPort cfg pv).Database = cfg.Database := rfl
    have hmp' : (updateHostPort cfg pv).MigrationsPath ≠ "" := hmp
    have hsp' : (updateHostPort cfg pv).SeedPath ≠ "" := hsp
    have hsf' : ¬((updateHostPort cfg pv).hasSeedFunc = false) := by
      simp [updateHostPort, hsf]
    simp [setup, migrateStep, seedPathStep, seedFuncStep, markTemplateStep,
      hmp', hsp', hsf', hef, hdb]
  · intro e h1 h2 h3 hm4 hs4 hsf h5 h6 h7
    rcases w with ⟨se, pe, pv, ple, me, sfo, soe, spe, sfe, aqe, ale⟩
    simp only at h1 h2 h3 h5 h6 h7 hm4 hs4 ⊢
    subst h1; subst h2; subst h3; subst h5; subst h6; subst h7
    have halter := countEv_migrateStep
      (.exec (.alterTemplate cfg.Database)) (updateHostPort cfg pv)
      ⟨none, none, pv, none, me, sfo, none, none, some e, aqe, ale⟩ (by simp)
    have halter2 := countEv_seedPathStep
      (.exec (.alterTemplate cfg.Database)) (updateHostPort cfg pv)
      ⟨none, none, pv, none, me, sfo, none, none, some e, aqe, ale⟩ d
      (by intro s; simp) (by simp [updateHostPort]) (by simp)
    rcases hm : migrateStep (updateHostPort cfg pv)
        ⟨none, none, pv, none, me, sfo, none, none, some e, aqe, ale⟩ with
      ⟨m1, m2⟩
    rw [hm] at hm4 halter
    simp only at hm4
    subst hm4
    rcases hs : seedPathStep (updateHostPort cfg pv)
        ⟨none, none, pv, none, me, sfo, none, none, some e, aqe, ale⟩ d with
      ⟨s1, s2⟩
    rw [hs] at hs4 halter2
    simp only at hs4
    subst hs4
    have hsf' : ¬((updateHostPort cfg pv).hasSeedFunc = false) := by
      simp [updateHostPort, hsf]
    simp only at halter halter2
    refine ?_
    simp [setup, hm, hs, seedFuncStep, hsf', countEv_append, countEv,
      halter, halter2]

theorem setup_stage_order_witness :
    setup cfgEx wAllOk dirEx =
      ⟨some ⟨updateHostPort cfgEx 5432⟩, none,
       [.startContainer, .newPool, .migrate, .openDB "acme", .ping,
        .exec (.raw "INSERT 1"), .exec (.raw "INSERT 2"), .openDB "acme",
        .ping, .seedFunc, .acquireGate, .exec (.alterTemplate "acme"),
        .releaseGate]⟩
    ∧ (setup cfgEx wSeedFuncFail dirEx).err = some "seed broke"
    ∧ (setup cfgEx wSeedFuncFail dirEx).val = none
    ∧ countEv (.exec (.alterTemplate "acme"))
        (setup cfgEx wSeedFuncFail dirEx).trace = 0 :=
  ⟨(setup_stage_order cfgEx wAllOk dirEx).1 (by decide) (by decide) rfl rfl
      rfl rfl rfl rfl rfl rfl rfl rfl rfl,
   ((setup_stage_order cfgEx wSeedFuncFail dirEx).2 "seed broke" rfl rfl rfl
      rfl rfl rfl rfl rfl rfl).1,
   ((setup_stage_order cfgEx wSeedFuncFail dirEx).2 "seed broke" rfl rfl rfl
      rfl rfl rfl rfl rfl rfl).2.1,
   ((setup_stage_order cfgEx wSeedFuncFail dirEx).2 "seed broke" rfl rfl rfl
      rfl rfl rfl rfl rfl rfl).2.2⟩

theorem drop_never_targets_template_witness :
    (⟨instanceName cfgEx.Database uuidEx⟩ : DatabaseInstance).Name ≠
      cfgEx.Database
    ∧ (⟨instanceName cfgEx.Database uuidEx⟩ : DatabaseInstance).Name.length =
        cfgEx.Database.length + 33 :=
  ⟨(drop_never_targets_template cfgEx ⟨none, none, none⟩ uuidEx
      ⟨instanceName cfgEx.Database uuidEx⟩ ⟨none, none, none⟩
      (by constructor <;> decide) rfl).2.1,
   (drop_never_targets_template cfgEx ⟨none, none, none⟩ uuidEx
      ⟨instanceName cfgEx.Database uuidEx⟩ ⟨none, none, none⟩
      (by constructor <;> decide) rfl).1⟩

end Brrr
